import Mathlib

/-!
Shallow embedding of the formula-watcher subsystem of LB-Backend
(src/app/workers/formula_watcher.py) and proofs about its claims.

The embedding models:
  - a fetched `reco_logics` row (`Row`);
  - the fingerprint function `_hash_recologic` (parameterised by the
    underlying digest function `md5 : String → String`, since the digest
    itself is a library call);
  - `_detect_changes` (`detect`), the cache update of the loop body
    (`updateCache`), and one iteration of `_formula_watcher_loop`
    (`loopCycle`), including the module state `_formula_hash_cache` and
    `_initialized` (field `inited`);
  - an event-trace view of one loop iteration (`cycleTrace`) recording the
    order of the fetch, the awaited pipeline trigger and the cache update;
  - `_extract_formulas` (`extractFormulas`), parameterised by the JSON
    parser `loads : String → Option Json`, where `none` stands for a
    `json.JSONDecodeError` raised and caught;
  - `_trigger_recalculations` (`triggerRecalculations`) with its
    non-blocking lock guard and its four per-stage error boundaries.
-/

/-- A row fetched by `_fetch_recologics`: `id`, the `recologic` payload
string (`none` models SQL NULL) and the lifecycle `status`.  The remaining
selected columns (`tender`, dates) are informational only and play no role
in detection, so they are omitted. -/
structure Row where
  id : Nat
  recologic : Option String
  status : String
deriving DecidableEq, Repr

/-- The module-level mutable state of `formula_watcher.py`:
`_formula_hash_cache` (an insertion-ordered dict from row id to
fingerprint, modelled as an association list) and `_initialized`. -/
structure WatcherState where
  cache : List (Nat × String)
  inited : Bool
deriving DecidableEq, Repr

/-- Observable effects of one iteration of the watcher loop body:
the changed rows and removed ids reported by `_detect_changes`, the ids
passed to `_mark_as_processed`, and whether `_trigger_recalculations`
was invoked. -/
structure CycleEffects where
  changed : List Row
  removed : List Nat
  processedIds : List Nat
  pipelineTriggered : Bool
deriving DecidableEq, Repr

/-- Embedding of `_hash_recologic`: `payload = recologic or ""` followed by
the digest.  `md5` is the digest function, kept abstract. -/
def hashRecologic (md5 : String → String) (recologic : Option String) : String :=
  md5 (recologic.getD "")

/-- Lookup in the association-list model of a Python dict
(`_formula_hash_cache.get`); keys are unique in an actual dict, so
first-match lookup is faithful. -/
def lookup : List (Nat × String) → Nat → Option String
  | [], _ => none
  | (k, v) :: t, i => if k = i then some v else lookup t i

/-- Embedding of `_detect_changes`: a fetched row is collected as changed
when the cached fingerprint for its id differs from (or is absent for) its
current fingerprint; an id in the cache whose row is not in the fetch is
collected as removed. -/
def detect (md5 : String → String) (cache : List (Nat × String))
    (records : List Row) : List Row × List Nat :=
  let changed := records.filter
    (fun r => decide (lookup cache r.id ≠ some (hashRecologic md5 r.recologic)))
  let currentIds : List Nat := records.map (fun r => r.id)
  let removed := (cache.map Prod.fst).filter (fun rid => decide (rid ∉ currentIds))
  (changed, removed)

/-- The cache replacement performed at the end of a non-empty cycle:
`\x7brow.id: _hash_recologic(row.recologic) for row in records\x7d`. -/
def updateCache (md5 : String → String) (records : List Row) : List (Nat × String) :=
  records.map (fun r => (r.id, hashRecologic md5 r.recologic))

/-- One iteration of the body of `_formula_watcher_loop`, as a function
from the pre-state and the fetch result to the post-state and the cycle's
effects.  An empty fetch takes the `if not records` branch: the cache is
cleared and nothing else happens (no detection, no marking, no trigger,
`_initialized` untouched).  Otherwise changes are detected, changed rows
are logged and marked, the pipeline is triggered when something changed or
was removed and this is not the first completed non-empty cycle, the cache
is replaced, and `_initialized` becomes true. -/
def loopCycle (md5 : String → String) (s : WatcherState) (records : List Row) :
    WatcherState × CycleEffects :=
  if records.isEmpty then
    (⟨[], s.inited⟩, ⟨[], [], [], false⟩)
  else
    let cr := detect md5 s.cache records
    let processedIds := cr.1.map (fun r => r.id)
    let trig := (!cr.1.isEmpty || !cr.2.isEmpty) && s.inited
    (⟨updateCache md5 records, true⟩, ⟨cr.1, cr.2, processedIds, trig⟩)

/-- The initial module state: `_formula_hash_cache = \x7b\x7d`,
`_initialized = False`. -/
def initState : WatcherState := ⟨[], false⟩

/-- Fold a sequence of fetch results through the loop, also recording
whether any cycle triggered the pipeline. -/
def runCycles (md5 : String → String) : WatcherState → List (List Row) → WatcherState × Bool
  | s, [] => (s, false)
  | s, f :: fs =>
    let se := loopCycle md5 s f
    let rest := runCycles md5 se.1 fs
    (rest.1, se.2.pipelineTriggered || rest.2)

/-- Events of one loop iteration, in program order. -/
inductive Ev where
  | fetch
  | trigStart
  | trigEnd
  | cacheUpdate
  | cycleEnd
deriving DecidableEq, Repr

/-- Event trace of one iteration of `_formula_watcher_loop`.  Because the
loop body contains `await _trigger_recalculations(...)` (line 114), the
trigger's completion event is emitted inside the cycle, before the cache
update and before the cycle ends. -/
def cycleTrace (md5 : String → String) (s : WatcherState) (records : List Row) : List Ev :=
  if records.isEmpty then [Ev.fetch, Ev.cycleEnd]
  else
    let cr := detect md5 s.cache records
    [Ev.fetch]
      ++ (if (!cr.1.isEmpty || !cr.2.isEmpty) && s.inited
          then [Ev.trigStart, Ev.trigEnd] else [])
      ++ [Ev.cacheUpdate, Ev.cycleEnd]

/-- Outcome of invoking one pipeline stage coroutine: it either returns a
result object (whose optional error indicator is truthy or not), or it
raises with a message. -/
inductive StageOutcome where
  | ok (hasError : Bool)
  | exn (msg : String)
deriving DecidableEq, Repr

/-- The value stored in the aggregate `results` dict for one stage:
the stage's returned object, the `\x7b"error": str(exc)\x7d` record built
in the stage's except-branch, or the `\x7b"success": True\x7d` record the
TRM stage stores on normal return. -/
inductive StageEntry where
  | res (hasError : Bool)
  | errored (msg : String)
  | successTrue
deriving DecidableEq, Repr

/-- One checked stage of `_trigger_recalculations` (stages 1, 3, 4):
the try-branch stores the returned object and clears `all_successful`
when its error indicator is truthy; the except-branch stores an error
record and clears `all_successful`. -/
def runStage : StageOutcome → StageEntry × Bool
  | .ok e => (.res e, !e)
  | .exn m => (.errored m, false)

/-- Stage 2 (`generate_common_trm_table_internal`): its return value is
discarded, so only an exception counts as failure. -/
def runTrmStage : StageOutcome → StageEntry × Bool
  | .ok _ => (.successTrue, true)
  | .exn m => (.errored m, false)

/-- The four stages of `_trigger_recalculations` in program order, each
inside its own error boundary, with the aggregate result map (insertion
order of the `results` dict) and the final `all_successful` flag. -/
def runPipeline (s1 s2 s3 s4 : StageOutcome) : List (String × StageEntry) × Bool :=
  ([("populate_threepo", (runStage s1).1),
    ("generate_trm", (runTrmStage s2).1),
    ("prepare_self_reco", (runStage s3).1),
    ("prepare_cross_reco", (runStage s4).1)],
   (runStage s1).2 && (runTrmStage s2).2 && (runStage s3).2 && (runStage s4).2)

/-- Result of one invocation of `_trigger_recalculations`: either the
early return taken when `_recalc_lock.locked()` is already true (no stage
runs), or a completed pipeline with its aggregate map and success flag. -/
inductive TriggerResult where
  | skipped
  | completed (results : List (String × StageEntry)) (allSuccessful : Bool)
deriving DecidableEq, Repr

/-- Embedding of `_trigger_recalculations`: `lockHeld` is whether another
pipeline run holds `_recalc_lock` at entry; the four `StageOutcome`s are
the behaviours of the external stage coroutines. -/
def triggerRecalculations (lockHeld : Bool) (s1 s2 s3 s4 : StageOutcome) : TriggerResult :=
  if lockHeld then .skipped
  else
    let p := runPipeline s1 s2 s3 s4
    .completed p.1 p.2

/-- A checked stage (1, 3, 4) counts as failed when it raised or when its
returned error indicator is truthy. -/
def stageFailedChecked : StageOutcome → Bool
  | .ok e => e
  | .exn _ => true

/-- The TRM stage counts as failed only when it raised. -/
def stageFailedTrm : StageOutcome → Bool
  | .ok _ => false
  | .exn _ => true

/-- A minimal JSON value model for the payload strings parsed by
`_extract_formulas`. -/
inductive Json where
  | null
  | bool (b : Bool)
  | num (n : Int)
  | str (s : String)
  | arr (items : List Json)
  | obj (fields : List (String × Json))
deriving Repr

/-- Python truthiness of a JSON value. -/
def jsonTruthy : Json → Bool
  | .null => false
  | .bool b => b
  | .num n => decide (n ≠ 0)
  | .str s => decide (s ≠ "")
  | .arr l => !l.isEmpty
  | .obj l => !l.isEmpty

/-- Python `dict.get` on a parsed JSON object. -/
def jget : List (String × Json) → String → Option Json
  | [], _ => none
  | (k, v) :: t, key => if k = key then some v else jget t key

/-- Python `a or b` over two `dict.get` results: `b` when `a` is absent or
falsy. -/
def pyOr (a b : Option Json) : Option Json :=
  match a with
  | some v => if jsonTruthy v then some v else b
  | none => b

/-- The formula record appended by `_extract_formulas` for each dict item. -/
structure Formula where
  logicName : Option Json
  logicNameKey : Option Json
  formulaText : Option Json
  description : Option Json

/-- Embedding of `_extract_formulas`.  `loads` is the JSON parser; a
`none` result models a `json.JSONDecodeError`, which the function catches
and logs, returning the (still empty) formula list.  A falsy payload
(SQL NULL or the empty string) returns the empty list before any parsing.
Non-dict items are skipped. -/
def extractFormulas (loads : String → Option Json) : Option String → List Formula
  | none => []
  | some s =>
    if s = "" then []
    else
      match loads s with
      | none => []
      | some data =>
        let items := match data with
          | .arr l => l
          | j => [j]
        items.filterMap (fun item => match item with
          | .obj fields =>
            some { logicName := pyOr (jget fields "logicName") (jget fields "name"),
                   logicNameKey := jget fields "logicNameKey",
                   formulaText := pyOr (jget fields "formulaText") (jget fields "expr"),
                   description := jget fields "description" }
          | _ => none)

/-! Helper lemmas shared by the claim theorems. -/

/-- An optional cached fingerprint differs from a fingerprint exactly when
it is absent or holds a different value. -/
lemma option_ne_some_iff (o : Option String) (h : String) :
    o ≠ some h ↔ (o = none ∨ ∃ h', o = some h' ∧ h' ≠ h) := by
  cases o <;> simp

/-- Looking a row's id up in the cache rebuilt from the very records it
came from returns that row's fingerprint, provided record ids are
distinct (they are a primary key in the store). -/
lemma lookup_updateCache (md5 : String → String) :
    ∀ records : List Row, (records.map (fun r => r.id)).Nodup →
      ∀ r ∈ records, lookup (updateCache md5 records) r.id =
        some (hashRecologic md5 r.recologic) := by
  intro records
  induction records with
  | nil => intro _ r hr; cases hr
  | cons a as ih =>
    intro hnd r hr
    rw [List.map_cons, List.nodup_cons] at hnd
    rcases List.mem_cons.mp hr with h | h
    · rw [h]
      show lookup ((a.id, hashRecologic md5 a.recologic) :: updateCache md5 as) a.id = _
      simp [lookup]
    · have hne : a.id ≠ r.id := fun he => hnd.1 (he ▸ List.mem_map_of_mem (fun r => r.id) h)
      show lookup ((a.id, hashRecologic md5 a.recologic) :: updateCache md5 as) r.id = _
      rw [lookup, if_neg hne]
      exact ih hnd.2 r h

/-- Re-running detection against the cache just rebuilt from the same
records finds no changed rows. -/
lemma detect_self_changed_nil (md5 : String → String) (records : List Row)
    (hnd : (records.map (fun r => r.id)).Nodup) :
    (detect md5 (updateCache md5 records) records).1 = [] := by
  show records.filter _ = []
  rw [List.filter_eq_nil_iff]
  intro r hr
  simp only [decide_eq_true_eq, not_not]
  exact lookup_updateCache md5 records hnd r hr

/-- Re-running detection against the cache just rebuilt from the same
records finds no removed ids. -/
lemma detect_self_removed_nil (md5 : String → String) (records : List Row) :
    (detect md5 (updateCache md5 records) records).2 = [] := by
  show ((updateCache md5 records).map Prod.fst).filter _ = []
  rw [List.filter_eq_nil_iff]
  intro x hx
  have hx' : x ∈ records.map (fun r => r.id) := by
    simpa [updateCache, List.map_map, Function.comp] using hx
  simp [hx']

/-- An empty fetch takes the `if not records` branch: clear the cache,
touch nothing else. -/
lemma loopCycle_nil_fetch (md5 : String → String) (s : WatcherState) :
    loopCycle md5 s [] = (⟨[], s.inited⟩, ⟨[], [], [], false⟩) := rfl

/-- While `_initialized` is still false, no cycle can trigger the
pipeline. -/
lemma loopCycle_no_trigger_of_not_inited (md5 : String → String) (s : WatcherState)
    (records : List Row) (h : s.inited = false) :
    (loopCycle md5 s records).2.pipelineTriggered = false := by
  cases records with
  | nil => rfl
  | cons a as => simp [loopCycle, h]

/-- A run of cycles all of whose fetches are empty leaves `_initialized`
unchanged and never triggers the pipeline. -/
lemma runCycles_allEmpty (md5 : String → String) :
    ∀ (fetches : List (List Row)) (s : WatcherState), (∀ f ∈ fetches, f = []) →
      (runCycles md5 s fetches).1.inited = s.inited ∧
      (runCycles md5 s fetches).2 = false := by
  intro fetches
  induction fetches with
  | nil => intro s _; exact ⟨rfl, rfl⟩
  | cons f fs ih =>
    intro s h
    have hf : f = [] := h f (List.mem_cons_self f fs)
    subst hf
    have h' : ∀ g ∈ fs, g = [] := fun g hg => h g (List.mem_cons_of_mem _ hg)
    have hrest := ih ⟨[], s.inited⟩ h'
    refine ⟨by simpa using hrest.1, ?_⟩
    show ((loopCycle md5 s []).2.pipelineTriggered
        || (runCycles md5 (loopCycle md5 s []).1 fs).2) = false
    rw [loopCycle_nil_fetch]
    simpa using hrest.2

/-- The success bit of a checked stage is the negation of its failure
predicate. -/
lemma runStage_snd (s : StageOutcome) : (runStage s).2 = !(stageFailedChecked s) := by
  cases s <;> rfl

/-- The success bit of the TRM stage is the negation of its failure
predicate. -/
lemma runTrmStage_snd (s : StageOutcome) : (runTrmStage s).2 = !(stageFailedTrm s) := by
  cases s <;> rfl

/-- A four-way conjunction of negations is false exactly when some
conjunct's underlying bit is set. -/
lemma and4_false_iff (a b c d : Bool) :
    ((!a && !b && !c && !d) = false ↔ (a || b || c || d) = true) := by
  revert a b c d; decide

/-! Claim theorems. -/

/-- Claim C1, counterexample: with a non-empty previous cache holding id 1
and an empty fetch, the loop's `if not records` branch clears the cache
but does not classify id 1 as removed and does not invoke the pipeline,
contradicting the claim that every cached id is classified removed and the
RecalcPipeline is invoked. -/
theorem loopCycle_emptyFetch_cex :
    (loopCycle (fun st => st) ⟨[(1, "h")], true⟩ []).2.pipelineTriggered = false ∧
    ¬ (1 ∈ (loopCycle (fun st => st) ⟨[(1, "h")], true⟩ []).2.removed) ∧
    (loopCycle (fun st => st) ⟨[(1, "h")], true⟩ []).1.cache = [] := by
  decide

/-- Claim C1, amended: for every poll cycle whose fetch returns zero rows
while the previous cache is non-empty, the cache becomes empty, but change
detection is skipped entirely: no id is classified as removed, the
RecalcPipeline is not invoked, and the first-cycle flag is untouched. -/
theorem loopCycle_emptyFetch_behavior (md5 : String → String) (s : WatcherState)
    (hne : s.cache ≠ []) :
    loopCycle md5 s [] = (⟨[], s.inited⟩, ⟨[], [], [], false⟩) := rfl

/-- Witness for `loopCycle_emptyFetch_behavior` at a concrete non-empty
cache. -/
theorem loopCycle_emptyFetch_behavior_witness :
    loopCycle (fun st => st) ⟨[(1, "h")], true⟩ [] = (⟨[], true⟩, ⟨[], [], [], false⟩) :=
  loopCycle_emptyFetch_behavior (fun st => st) ⟨[(1, "h")], true⟩ (by decide)

/-- Claim C2, counterexample: in a cycle that fires the trigger, the
pipeline's completion event `trigEnd` occurs inside the cycle's own trace,
before the cache update and the end of the cycle, because the loop body
awaits `_trigger_recalculations`; this contradicts the claim that the
trigger is dispatched without awaiting its completion and runs
concurrently with subsequent poll cycles. -/
theorem cycleTrace_awaits_trigger_cex :
    Ev.trigEnd ∈ cycleTrace (fun st => st) ⟨[], true⟩ [⟨1, some "f", "ACTIVE"⟩] ∧
    cycleTrace (fun st => st) ⟨[], true⟩ [⟨1, some "f", "ACTIVE"⟩] =
      [Ev.fetch, Ev.trigStart, Ev.trigEnd, Ev.cacheUpdate, Ev.cycleEnd] := by
  decide

/-- Claim C2, amended: whenever a cycle starts the pipeline trigger, the
loop awaits its completion within that same cycle: the trace is exactly
fetch, trigger start, trigger end, cache update, cycle end, so the
pipeline run finishes before the cycle ends and before any subsequent poll
cycle begins (a hung stage would therefore stall the poll loop itself). -/
theorem cycleTrace_trigger_awaited (md5 : String → String) (s : WatcherState)
    (records : List Row) (h : Ev.trigStart ∈ cycleTrace md5 s records) :
    cycleTrace md5 s records =
      [Ev.fetch, Ev.trigStart, Ev.trigEnd, Ev.cacheUpdate, Ev.cycleEnd] := by
  cases records with
  | nil => simp [cycleTrace] at h
  | cons r rs =>
    by_cases hc : ((!(detect md5 s.cache (r :: rs)).1.isEmpty
        || !(detect md5 s.cache (r :: rs)).2.isEmpty) && s.inited) = true
    · simp [cycleTrace, hc]
    · simp [cycleTrace, hc] at h

/-- Witness for `cycleTrace_trigger_awaited` at a concrete cycle that
fires the trigger. -/
theorem cycleTrace_trigger_awaited_witness :
    cycleTrace (fun st => st) ⟨[], true⟩ [⟨2, some "g", "UPDATED"⟩] =
      [Ev.fetch, Ev.trigStart, Ev.trigEnd, Ev.cacheUpdate, Ev.cycleEnd] :=
  cycleTrace_trigger_awaited (fun st => st) ⟨[], true⟩ [⟨2, some "g", "UPDATED"⟩] (by decide)

/-- Claim C3, counterexample: a row detected as changed in one cycle is
not re-detected as changed in the next cycle even though its status write
failed and it is fetched again unchanged: the fingerprint cache was
replaced regardless of the write's outcome, so the second detection
classifies it as unchanged, contradicting the claim that it is re-detected
as changed. -/
theorem failed_write_not_redetected_cex :
    (loopCycle (fun st => st) ⟨[], true⟩ [⟨1, some "F", "ACTIVE"⟩]).2.changed =
      [⟨1, some "F", "ACTIVE"⟩] ∧
    (loopCycle (fun st => st)
        (loopCycle (fun st => st) ⟨[], true⟩ [⟨1, some "F", "ACTIVE"⟩]).1
        [⟨1, some "F", "ACTIVE"⟩]).2.changed = [] := by
  decide

/-- Claim C3, amended: when the batched status write fails, the row stays
ACTIVE/UPDATED and is fetched again, but because the loop replaced the
fingerprint cache regardless of the write's outcome, a second cycle over
the same rows detects no changes and no removals, marks nothing and does
not re-trigger the pipeline; the row is silently never reprocessed until
its payload changes. -/
theorem second_cycle_no_redetection (md5 : String → String) (s : WatcherState)
    (records : List Row) (hnd : (records.map (fun r => r.id)).Nodup) :
    (loopCycle md5 (loopCycle md5 s records).1 records).2 = ⟨[], [], [], false⟩ := by
  cases records with
  | nil => rfl
  | cons a as =>
    have h1 : (loopCycle md5 s (a :: as)).1 = ⟨updateCache md5 (a :: as), true⟩ := rfl
    rw [h1]
    have hch := detect_self_changed_nil md5 (a :: as) hnd
    have hrm := detect_self_removed_nil md5 (a :: as)
    simp [loopCycle, hch, hrm]

/-- Witness for `second_cycle_no_redetection` at a concrete row. -/
theorem second_cycle_no_redetection_witness :
    (loopCycle (fun st => st)
        (loopCycle (fun st => st) ⟨[], true⟩ [⟨3, some "G", "ACTIVE"⟩]).1
        [⟨3, some "G", "ACTIVE"⟩]).2 = ⟨[], [], [], false⟩ :=
  second_cycle_no_redetection (fun st => st) ⟨[], true⟩ [⟨3, some "G", "ACTIVE"⟩] (by decide)

/-- Claim C4: once `_trigger_recalculations` acquires the lock, every
combination of per-stage outcomes (returned error indicator or raised
exception) yields a completed pipeline whose aggregate map names all four
stages in order, whose success flag is false exactly when some stage
failed, and which never propagates a stage exception (the embedding is a
total function into `TriggerResult.completed`). -/
theorem pipeline_stage_isolation (s1 s2 s3 s4 : StageOutcome) :
    ∃ entries allOk,
      triggerRecalculations false s1 s2 s3 s4 = TriggerResult.completed entries allOk ∧
      entries.map Prod.fst =
        ["populate_threepo", "generate_trm", "prepare_self_reco", "prepare_cross_reco"] ∧
      (allOk = false ↔
        (stageFailedChecked s1 || stageFailedTrm s2
          || stageFailedChecked s3 || stageFailedChecked s4) = true) := by
  refine ⟨(runPipeline s1 s2 s3 s4).1, (runPipeline s1 s2 s3 s4).2, rfl,
    by simp [runPipeline], ?_⟩
  have h : (runPipeline s1 s2 s3 s4).2 =
      (!(stageFailedChecked s1) && !(stageFailedTrm s2)
        && !(stageFailedChecked s3) && !(stageFailedChecked s4)) := by
    simp [runPipeline, runStage_snd, runTrmStage_snd]
  rw [h]
  exact and4_false_iff _ _ _ _

/-- Claim C5: on the first poll cycle after watcher start (the initial
state has an empty cache and `_initialized` false), no fetch result of any
size triggers the RecalcPipeline, and the cache ends up holding exactly
the fingerprints of the fetched rows. -/
theorem cold_start_suppression (md5 : String → String) (records : List Row) :
    (loopCycle md5 initState records).2.pipelineTriggered = false ∧
    (loopCycle md5 initState records).1.cache = updateCache md5 records := by
  cases records with
  | nil => exact ⟨rfl, rfl⟩
  | cons a as => exact ⟨by simp [loopCycle, initState], rfl⟩

/-- Claim C6: detection classifies a fetched row as changed exactly when
its id is absent from the cache or the cached fingerprint differs from its
current fingerprint; it classifies an id as removed exactly when the id is
a cache key absent from the fetch, independent of fingerprint values; and
no fetched row's id is classified both changed and removed. -/
theorem detect_classification (md5 : String → String) (cache : List (Nat × String))
    (records : List Row) :
    (∀ row : Row, row ∈ (detect md5 cache records).1 ↔
      row ∈ records ∧ (lookup cache row.id = none ∨
        ∃ h, lookup cache row.id = some h ∧ h ≠ hashRecologic md5 row.recologic)) ∧
    (∀ rid : Nat, rid ∈ (detect md5 cache records).2 ↔
      rid ∈ cache.map Prod.fst ∧ rid ∉ records.map (fun r => r.id)) ∧
    (∀ row : Row, row ∈ (detect md5 cache records).1 →
      row.id ∉ (detect md5 cache records).2) := by
  refine ⟨?_, ?_, ?_⟩
  · intro row
    rw [show (detect md5 cache records).1 = records.filter
      (fun r => decide (lookup cache r.id ≠ some (hashRecologic md5 r.recologic))) from rfl]
    rw [List.mem_filter, decide_eq_true_eq, option_ne_some_iff]
  · intro rid
    rw [show (detect md5 cache records).2 = (cache.map Prod.fst).filter
      (fun i => decide (i ∉ records.map (fun r => r.id))) from rfl]
    rw [List.mem_filter, decide_eq_true_eq]
  · intro row hrow hmem
    have hr : row ∈ records := by
      rw [show (detect md5 cache records).1 = records.filter
        (fun r => decide (lookup cache r.id ≠ some (hashRecologic md5 r.recologic))) from rfl,
        List.mem_filter] at hrow
      exact hrow.1
    rw [show (detect md5 cache records).2 = (cache.map Prod.fst).filter
      (fun i => decide (i ∉ records.map (fun r => r.id))) from rfl,
      List.mem_filter, decide_eq_true_eq] at hmem
    exact hmem.2 (List.mem_map_of_mem (fun r => r.id) hr)

/-- Witness for `detect_classification` at a concrete cache and fetch:
the changed row with id 1 is not also classified removed. -/
theorem detect_classification_witness :
    (⟨1, some "c", "ACTIVE"⟩ : Row).id ∉
      (detect (fun st => st) [(1, "a"), (2, "b")] [⟨1, some "c", "ACTIVE"⟩]).2 :=
  (detect_classification (fun st => st) [(1, "a"), (2, "b")]
    [⟨1, some "c", "ACTIVE"⟩]).2.2 ⟨1, some "c", "ACTIVE"⟩ (by decide)

/-- Claim C7: a trigger invocation arriving while a pipeline run is in
progress (the lock is held) returns `skipped` without executing any stage
and without raising, while an invocation finding the lock free completes a
full pipeline; the skip guard gives the at-most-one-active-run
discipline. -/
theorem trigger_mutual_exclusion (a1 a2 a3 a4 b1 b2 b3 b4 : StageOutcome) :
    (∃ entries allOk,
      triggerRecalculations false a1 a2 a3 a4 = TriggerResult.completed entries allOk) ∧
    triggerRecalculations true b1 b2 b3 b4 = TriggerResult.skipped :=
  ⟨⟨(runPipeline a1 a2 a3 a4).1, (runPipeline a1 a2 a3 a4).2, rfl⟩, rfl⟩

/-- Claim C8: running detection a second time on identical fetched rows,
with the cache holding what the loop installed after the first run (the
fingerprints of those same rows, per the cache replacement at the end of
the cycle) and otherwise unchanged, yields an empty changed list. -/
theorem detect_rerun_empty (md5 : String → String) (records : List Row)
    (hnd : (records.map (fun r => r.id)).Nodup) :
    (detect md5 (updateCache md5 records) records).1 = [] :=
  detect_self_changed_nil md5 records hnd

/-- Witness for `detect_rerun_empty` at a concrete record list. -/
theorem detect_rerun_empty_witness :
    (detect (fun st => st)
      (updateCache (fun st => st) [⟨4, some "J", "ACTIVE"⟩, ⟨5, some "K", "UPDATED"⟩])
      [⟨4, some "J", "ACTIVE"⟩, ⟨5, some "K", "UPDATED"⟩]).1 = [] :=
  detect_rerun_empty (fun st => st)
    [⟨4, some "J", "ACTIVE"⟩, ⟨5, some "K", "UPDATED"⟩] (by decide)

/-- Claim C9: formula extraction is a total function of the payload: a
payload whose parse fails (a decode error, caught and logged) yields the
empty formula list, a missing payload yields the empty list, and the
fingerprint of a missing or empty payload is the digest of the empty
string rather than an error. -/
theorem extract_total_hash_empty (loads : String → Option Json)
    (md5 : String → String) (payload : String) :
    (loads payload = none → extractFormulas loads (some payload) = []) ∧
    extractFormulas loads none = [] ∧
    hashRecologic md5 none = md5 "" ∧
    hashRecologic md5 (some "") = md5 "" := by
  refine ⟨?_, rfl, rfl, rfl⟩
  intro h
  by_cases hs : payload = ""
  · simp [extractFormulas, hs]
  · simp [extractFormulas, hs, h]

/-- Witness for `extract_total_hash_empty` on a malformed payload with a
parser that rejects it. -/
theorem extract_total_hash_empty_witness :
    extractFormulas (fun _ => none) (some "not json") = [] :=
  (extract_total_hash_empty (fun _ => none) (fun st => st) "not json").1 rfl

/-- Claim C10: as long as every fetch has returned zero rows, no cycle
has triggered the pipeline and `_initialized` is still false, so the first
non-empty fetch cycle is also treated as the cold-start cycle and does not
invoke the pipeline either: the pipeline is never invoked before at least
one non-empty fetch cycle has completed. -/
theorem no_trigger_before_nonempty_cycle (md5 : String → String)
    (fetches : List (List Row)) (records : List Row)
    (h : ∀ f ∈ fetches, f = []) :
    (runCycles md5 initState fetches).2 = false ∧
    (runCycles md5 initState fetches).1.inited = false ∧
    (loopCycle md5 (runCycles md5 initState fetches).1 records).2.pipelineTriggered
      = false := by
  have hh := runCycles_allEmpty md5 fetches initState h
  refine ⟨hh.2, ?_, ?_⟩
  · rw [hh.1]; rfl
  · exact loopCycle_no_trigger_of_not_inited md5 _ records (by rw [hh.1]; rfl)

/-- Witness for `no_trigger_before_nonempty_cycle`: two empty fetches
followed by a non-empty one still do not trigger the pipeline. -/
theorem no_trigger_before_nonempty_cycle_witness :
    (loopCycle (fun st => st) (runCycles (fun st => st) initState [[], []]).1
      [⟨6, some "L", "ACTIVE"⟩]).2.pipelineTriggered = false :=
  (no_trigger_before_nonempty_cycle (fun st => st) [[], []]
    [⟨6, some "L", "ACTIVE"⟩] (by decide)).2.2
